import Mathlib

/-!
Verification of the android-api repository: a REST CRUD server over one table,
in two variants (a MySQL-pool variant in `src/unnamed/part_000` and a
Supabase-client variant in `src/src/server.js`), plus a periodic
connection-health monitor shared by both.

The embedding models the database table as an in-memory list of rows with an
auto-increment id counter. Each route handler is translated directly from its
source: it takes a fault-injection parameter (`none` = the query executed,
`some e` = the data layer threw an error with message `e`, which the handler
catches), the current store, and the request parameters, and returns the new
store together with the HTTP response. Route path parameters are modelled as
the numeric ids they denote (the SQL layer coerces the textual parameter when
comparing against the numeric id column). A request body field that is absent
is modelled as `none`: the MySQL driver escapes such a value as SQL NULL when
it is bound into the query, and the row field stores `none`.

The external database clients are modelled on their success path as executing
the literal query text that appears in the source: `SELECT * WHERE id = ?` is
a filter on the id column, `UPDATE ... SET name = ?, description = ?` rewrites
exactly those two columns on matching rows, `DELETE WHERE id = ?` removes the
matching rows, and the Supabase `.select().single()` suffix yields the first
matching row or a null datum when no row matches.
-/

namespace AndroidApi

/-- JSON scalar values appearing in the responses of this API. -/
inductive JVal where
  | str : String → JVal
  | num : Nat → JVal
  | null : JVal
  deriving DecidableEq

/-- Response bodies: a JSON object (a list of key/value fields), a JSON array
of objects, or the empty body produced by `res.status(204).send()`. -/
inductive Body where
  | obj : List (String × JVal) → Body
  | arr : List (List (String × JVal)) → Body
  | empty : Body
  deriving DecidableEq

/-- Whether a body is a JSON object having a field with the given key. -/
def Body.hasField : Body → String → Bool
  | .obj fs, k => fs.any (fun p => p.1 == k)
  | _, _ => false

/-- An HTTP response: status code and body. -/
structure Response where
  status : Nat
  body : Body
  deriving DecidableEq

/-- A row of the single table (`items` in the MySQL variant, `android` in the
Supabase variant). `location`/`contacts`/`image`/`call_logs`/`sms` are set at
creation; `name`/`description` are set only by update; `none` is SQL NULL. -/
structure Item where
  id : Nat
  location : Option String
  contacts : Option String
  image : Option String
  call_logs : Option String
  sms : Option String
  name : Option String
  description : Option String
  deriving DecidableEq

/-- JSON encoding of a nullable column value. -/
def optJ : Option String → JVal
  | some s => .str s
  | none => .null

/-- JSON object serialization of a full row, as `res.json(row)` produces. -/
def Item.toJson (it : Item) : List (String × JVal) :=
  [("id", .num it.id), ("location", optJ it.location),
   ("contacts", optJ it.contacts), ("image", optJ it.image),
   ("call_logs", optJ it.call_logs), ("sms", optJ it.sms),
   ("name", optJ it.name), ("description", optJ it.description)]

/-- The table state: current rows and the next auto-increment id. -/
structure Store where
  rows : List Item
  nextId : Nat
  deriving DecidableEq

/-- `SELECT * FROM items` : every row. -/
def selectAll (s : Store) : List Item := s.rows

/-- `SELECT * FROM items WHERE id = ?` : the rows whose id column matches. -/
def selectById (s : Store) (i : Nat) : List Item :=
  s.rows.filter (fun r => r.id == i)

/-- `INSERT INTO items (location, contacts, image, call_logs, sms) VALUES
(?, ?, ?, ?, ?)` : appends a fresh row with a generated id, the five supplied
values, and NULL `name`/`description`; returns the new store and the row. -/
def insertRow (s : Store) (location contacts image call_logs sms : Option String) :
    Store × Item :=
  let it : Item :=
    { id := s.nextId, location := location, contacts := contacts,
      image := image, call_logs := call_logs, sms := sms,
      name := none, description := none }
  ({ rows := s.rows ++ [it], nextId := s.nextId + 1 }, it)

/-- The effect of `SET name = ?, description = ?` on one row: exactly the two
columns are overwritten, every other column is untouched. -/
def updateRow (it : Item) (name description : Option String) : Item :=
  { it with name := name, description := description }

/-- `UPDATE items SET name = ?, description = ? WHERE id = ?` : rewrites the
two columns on matching rows; returns the new store and the number of
affected rows. -/
def updateById (s : Store) (i : Nat) (name description : Option String) :
    Store × Nat :=
  ({ rows := s.rows.map (fun r => if r.id == i then updateRow r name description else r),
     nextId := s.nextId },
   (s.rows.filter (fun r => r.id == i)).length)

/-- `DELETE FROM items WHERE id = ?` : removes matching rows; returns the new
store and the number of affected rows. -/
def deleteById (s : Store) (i : Nat) : Store × Nat :=
  ({ rows := s.rows.filter (fun r => r.id != i), nextId := s.nextId },
   (s.rows.filter (fun r => r.id == i)).length)

/-- Outcome of one data-access call under fault injection: `none` lets the
computed value through, `some e` makes the call throw error message `e`. -/
def run (fault : Option String) (x : α) : Except String α :=
  match fault with
  | some e => .error e
  | none => .ok x

/-- Body of the generic catch-all failure response of the item routes. -/
def errorBody : Body := .obj [("error", .str "Internal server error")]

/-- Body of the not-found response. -/
def notFoundBody : Body := .obj [("error", .str "Item not found")]

namespace Mysql

/-- The `GET /api/status` handler of the MySQL variant: probes with
`SELECT 1`; on success responds 200 connected, on a caught error responds 500
disconnected with the error message echoed. `now` is the request timestamp. -/
def statusHandler (probe : Except String Unit) (now : String) : Response :=
  match probe with
  | .ok _ =>
      ⟨200, .obj [("status", .str "connected"),
                  ("message", .str "Database connection is active"),
                  ("timestamp", .str now)]⟩
  | .error e =>
      ⟨500, .obj [("status", .str "disconnected"),
                  ("message", .str "Database connection error"),
                  ("error", .str e),
                  ("timestamp", .str now)]⟩

/-- The `GET /api/items` handler of the MySQL variant. -/
def getItemsHandler (fault : Option String) (s : Store) : Response :=
  match run fault (selectAll s) with
  | .ok rows => ⟨200, .arr (rows.map Item.toJson)⟩
  | .error _ => ⟨500, errorBody⟩

/-- The `POST /api/items` handler of the MySQL variant: inserts the five body
fields and responds 201 with `{id, location, contacts, image, call_logs, sms}`. -/
def postItemHandler (fault : Option String) (s : Store)
    (location contacts image call_logs sms : Option String) : Store × Response :=
  match run fault (insertRow s location contacts image call_logs sms) with
  | .ok res =>
      (res.1, ⟨201, .obj [("id", .num res.2.id), ("location", optJ location),
                          ("contacts", optJ contacts), ("image", optJ image),
                          ("call_logs", optJ call_logs), ("sms", optJ sms)]⟩)
  | .error _ => (s, ⟨500, errorBody⟩)

/-- The `GET /api/items/:id` handler of the MySQL variant: 404 when zero rows
match, otherwise 200 with the first matching row. -/
def getItemHandler (fault : Option String) (s : Store) (i : Nat) : Response :=
  match run fault (selectById s i) with
  | .ok rows =>
      match rows with
      | [] => ⟨404, notFoundBody⟩
      | r :: _ => ⟨200, .obj r.toJson⟩
  | .error _ => ⟨500, errorBody⟩

/-- The `PUT /api/items/:id` handler of the MySQL variant: 404 when zero rows
were affected, otherwise 200 with `{id, name, description}` echoed from the
request. -/
def putItemHandler (fault : Option String) (s : Store) (i : Nat)
    (name description : Option String) : Store × Response :=
  match run fault (updateById s i name description) with
  | .ok res =>
      if res.2 == 0 then (res.1, ⟨404, notFoundBody⟩)
      else (res.1, ⟨200, .obj [("id", .num i), ("name", optJ name),
                               ("description", optJ description)]⟩)
  | .error _ => (s, ⟨500, errorBody⟩)

/-- The `DELETE /api/items/:id` handler of the MySQL variant: 404 when zero
rows were affected, otherwise 204 with an empty body. -/
def deleteItemHandler (fault : Option String) (s : Store) (i : Nat) :
    Store × Response :=
  match run fault (deleteById s i) with
  | .ok res =>
      if res.2 == 0 then (res.1, ⟨404, notFoundBody⟩)
      else (res.1, ⟨204, .empty⟩)
  | .error _ => (s, ⟨500, errorBody⟩)

end Mysql

namespace Supa

/-- The `GET /api/status` handler of the Supabase variant: probes with a
trivial count select; the response shapes are identical to the MySQL variant. -/
def statusHandler (probe : Except String Unit) (now : String) : Response :=
  match probe with
  | .ok _ =>
      ⟨200, .obj [("status", .str "connected"),
                  ("message", .str "Database connection is active"),
                  ("timestamp", .str now)]⟩
  | .error e =>
      ⟨500, .obj [("status", .str "disconnected"),
                  ("message", .str "Database connection error"),
                  ("error", .str e),
                  ("timestamp", .str now)]⟩

/-- The `GET /api/items` handler of the Supabase variant. -/
def getItemsHandler (fault : Option String) (s : Store) : Response :=
  match run fault (selectAll s) with
  | .ok rows => ⟨200, .arr (rows.map Item.toJson)⟩
  | .error _ => ⟨500, errorBody⟩

/-- The `POST /api/items` handler of the Supabase variant:
`.insert([{...}]).select().single()` yields the created row, and the handler
responds 201 with the full row. -/
def postItemHandler (fault : Option String) (s : Store)
    (location contacts image call_logs sms : Option String) : Store × Response :=
  match run fault (insertRow s location contacts image call_logs sms) with
  | .ok res => (res.1, ⟨201, .obj res.2.toJson⟩)
  | .error _ => (s, ⟨500, errorBody⟩)

/-- The `GET /api/items/:id` handler of the Supabase variant:
`.select().eq(id).single()` yields the first matching row or a null datum;
the handler responds 404 on a null datum and 200 with the full row otherwise. -/
def getItemHandler (fault : Option String) (s : Store) (i : Nat) : Response :=
  match run fault ((selectById s i).head?) with
  | .ok d =>
      match d with
      | none => ⟨404, notFoundBody⟩
      | some r => ⟨200, .obj r.toJson⟩
  | .error _ => ⟨500, errorBody⟩

/-- The `PUT /api/items/:id` handler of the Supabase variant:
`.update({name, description}).eq(id).select().single()` performs the update
and yields the first updated row or a null datum; the handler responds 404 on
a null datum and 200 with the full updated row otherwise. -/
def putItemHandler (fault : Option String) (s : Store) (i : Nat)
    (name description : Option String) : Store × Response :=
  match run fault (updateById s i name description) with
  | .ok res =>
      match (selectById res.1 i).head? with
      | none => (res.1, ⟨404, notFoundBody⟩)
      | some r => (res.1, ⟨200, .obj r.toJson⟩)
  | .error _ => (s, ⟨500, errorBody⟩)

/-- The `DELETE /api/items/:id` handler of the Supabase variant: deletes the
matching rows and responds 204 unconditionally — unlike the MySQL variant it
has no zero-rows-affected check and therefore no 404 branch. -/
def deleteItemHandler (fault : Option String) (s : Store) (i : Nat) :
    Store × Response :=
  match run fault (deleteById s i) with
  | .ok res => (res.1, ⟨204, .empty⟩)
  | .error _ => (s, ⟨500, errorBody⟩)

end Supa

/-! ## Health monitor

Both variants share the same monitor verbatim: module-level mutables
`isConnected` and `connectionAttempts`, a constant `MAX_RETRY_ATTEMPTS = 5`,
and a `checkConnection` closure invoked once at startup and then on a timer.
-/

/-- Monitor state: the two module-level mutables plus the process exit status
(`none` while the process is alive, `some c` once `process.exit(c)` ran). -/
structure MonState where
  isConnected : Bool
  connectionAttempts : Nat
  exitCode : Option Nat
  deriving DecidableEq

/-- The fixed failure threshold of the monitor. -/
def MAX_RETRY_ATTEMPTS : Nat := 5

/-- Monitor state at process start. -/
def initMonState : MonState := ⟨false, 0, none⟩

/-- One invocation of `checkConnection` with probe result `probeOk`. A dead
process (exit already called) runs nothing. On success, only the
not-yet-connected branch mutates state: it sets connected and zeroes the
counter. On failure, the counter increments, connected is cleared, and when
the counter reaches `MAX_RETRY_ATTEMPTS` the process exits with code 1. -/
def checkConnection (probeOk : Bool) (s : MonState) : MonState :=
  if s.exitCode.isSome then s
  else if probeOk then
    if s.isConnected then s
    else { isConnected := true, connectionAttempts := 0, exitCode := none }
  else
    let attempts := s.connectionAttempts + 1
    { isConnected := false, connectionAttempts := attempts,
      exitCode := if MAX_RETRY_ATTEMPTS ≤ attempts then some 1 else none }

/-- Runs a sequence of probe results from a given state. -/
def stepN (s : MonState) (probes : List Bool) : MonState :=
  probes.foldl (fun t p => checkConnection p t) s

/-- States the monitor can be in after some sequence of probe results. -/
def Reachable (s : MonState) : Prop :=
  ∃ probes : List Bool, stepN initMonState probes = s

/-- The process has terminated with a non-zero exit code. -/
def TerminatedNonzero (s : MonState) : Prop :=
  ∃ c, s.exitCode = some c ∧ c ≠ 0

/-- Monitor invariant: a connected state has a zeroed failure counter, a live
process has seen at most 4 consecutive failures, and the only exit ever taken
is `process.exit(1)`. -/
def MonInv (s : MonState) : Prop :=
  (s.isConnected = true → s.connectionAttempts = 0) ∧
  (s.exitCode = none → s.connectionAttempts ≤ 4) ∧
  (s.exitCode = none ∨ s.exitCode = some 1)

/-- Well-formedness of the table state: every stored id is below the
auto-increment counter, as the storage engine guarantees. -/
def WF (s : Store) : Prop := ∀ r ∈ s.rows, r.id < s.nextId

/-! ## Helper lemmas -/

theorem checkConnection_inv {s : MonState} (h : MonInv s) (p : Bool) :
    MonInv (checkConnection p s) := by
  obtain ⟨h1, h2, h3⟩ := h
  unfold checkConnection
  split
  · exact ⟨h1, h2, h3⟩
  · split
    · split
      · exact ⟨h1, h2, h3⟩
      · exact ⟨fun _ => rfl, fun _ => Nat.zero_le 4, Or.inl rfl⟩
    · refine ⟨fun hc => by simp at hc, ?_, ?_⟩
      · intro hec
        simp only at hec ⊢
        split at hec
        · exact absurd hec (by simp)
        · next hlt => simp only [MAX_RETRY_ATTEMPTS] at hlt; omega
      · simp only
        split
        · exact Or.inr rfl
        · exact Or.inl rfl

theorem stepN_inv (probes : List Bool) {s : MonState} (h : MonInv s) :
    MonInv (stepN s probes) := by
  induction probes generalizing s with
  | nil => exact h
  | cons p ps ih => exact ih (checkConnection_inv h p)

theorem reachable_inv {s : MonState} (h : Reachable s) : MonInv s := by
  obtain ⟨probes, rfl⟩ := h
  exact stepN_inv probes (by constructor <;> simp [initMonState, MonInv])

theorem stepN_fail_five :
    ∀ a < 5, ∀ b : Bool,
      (stepN ⟨b, a, none⟩ (List.replicate 5 false)).exitCode = some 1 := by
  decide

theorem stepN_fail_from_zero (b : Bool) :
    (stepN ⟨b, 0, none⟩ (List.replicate 4 false)).exitCode = none ∧
    stepN ⟨b, 0, none⟩ (List.replicate 5 false) = ⟨false, 5, some 1⟩ := by
  cases b <;> exact ⟨rfl, rfl⟩

theorem success_resets {s : MonState} (h : Reachable s) (hl : s.exitCode = none) :
    (checkConnection true s).connectionAttempts = 0 := by
  obtain ⟨h1, -, -⟩ := reachable_inv h
  unfold checkConnection
  rw [hl]
  simp only [Option.isSome_none, Bool.false_eq_true, if_false, if_true]
  split
  · next hc => exact h1 hc
  · rfl

theorem updateRow_id (r : Item) (n d : Option String) :
    (updateRow r n d).id = r.id := rfl

theorem updateById_snd (s : Store) (i : Nat) (n d : Option String) :
    (updateById s i n d).2 = (selectById s i).length := rfl

theorem deleteById_snd (s : Store) (i : Nat) :
    (deleteById s i).2 = (selectById s i).length := rfl

theorem selectById_updateById (s : Store) (i : Nat) (n d : Option String) :
    selectById (updateById s i n d).1 i =
      (selectById s i).map (fun r => updateRow r n d) := by
  simp only [selectById, updateById]
  induction s.rows with
  | nil => rfl
  | cons a l ih =>
    simp only [List.map_cons, List.filter_cons]
    cases h : a.id == i
    · simpa [h] using ih
    · simpa [h, updateRow_id] using ih

theorem selectById_deleteById (s : Store) (i : Nat) :
    selectById (deleteById s i).1 i = [] := by
  simp only [selectById, deleteById]
  induction s.rows with
  | nil => rfl
  | cons a l ih =>
    simp only [List.filter_cons, bne]
    cases h : a.id == i
    · simp [h, ih]
    · simp [h, ih]

theorem selectById_insertRow (s : Store) (h : WF s)
    (location contacts image call_logs sms : Option String) :
    selectById (insertRow s location contacts image call_logs sms).1 s.nextId =
      [(insertRow s location contacts image call_logs sms).2] := by
  simp only [selectById, insertRow, List.filter_append]
  have h1 : s.rows.filter (fun r => r.id == s.nextId) = [] := by
    rw [List.filter_eq_nil_iff]
    intro a ha
    simp only [beq_iff_eq]
    exact Nat.ne_of_lt (h a ha)
  rw [h1]
  simp

theorem mem_updateById_of_match {s : Store} {r : Item} (hmem : r ∈ s.rows)
    {i : Nat} (hid : r.id = i) (n d : Option String) :
    updateRow r n d ∈ (updateById s i n d).1.rows := by
  have h2 := List.mem_map_of_mem
    (fun x : Item => if x.id == i then updateRow x n d else x) hmem
  simpa [updateById, hid] using h2

theorem mem_updateById_of_ne {s : Store} {r : Item} (hmem : r ∈ s.rows)
    {i : Nat} (hid : r.id ≠ i) (n d : Option String) :
    r ∈ (updateById s i n d).1.rows := by
  have h2 := List.mem_map_of_mem
    (fun x : Item => if x.id == i then updateRow x n d else x) hmem
  simpa [updateById, hid] using h2

theorem mysqlPutHandler_fst (s : Store) (i : Nat) (n d : Option String) :
    (Mysql.putItemHandler none s i n d).1 = (updateById s i n d).1 := by
  simp only [Mysql.putItemHandler, run]
  split <;> rfl

theorem supaPutHandler_fst (s : Store) (i : Nat) (n d : Option String) :
    (Supa.putItemHandler none s i n d).1 = (updateById s i n d).1 := by
  simp only [Supa.putItemHandler, run]
  split <;> rfl

theorem mysqlDeleteHandler_fst (s : Store) (i : Nat) :
    (Mysql.deleteItemHandler none s i).1 = (deleteById s i).1 := by
  simp only [Mysql.deleteItemHandler, run]
  split <;> rfl

/-! ## Claims -/

/-- C1 (counterexample): the claim says all three of GET, PUT and DELETE on
an id matching no stored Item respond 404 with the not-found body. In the
Supabase variant the DELETE handler has no zero-rows-affected check: on the
empty store, where id 1 matches nothing, it responds 204, not 404. -/
theorem C1_counterexample :
    selectById ⟨[], 1⟩ 1 = [] ∧
    (Supa.deleteItemHandler none ⟨[], 1⟩ 1).2.status = 204 ∧
    (Supa.deleteItemHandler none ⟨[], 1⟩ 1).2 ≠ ⟨404, notFoundBody⟩ := by
  refine ⟨rfl, rfl, ?_⟩
  decide

/-- C1 (amended): for every id matching no stored Item, GET and PUT respond
404 with `{error:"Item not found"}` in both variants, and so does DELETE in
the MySQL variant; the Supabase variant's DELETE instead responds 204 with an
empty body. -/
theorem C1_amended (s : Store) (i : Nat) (name description : Option String)
    (h : selectById s i = []) :
    Mysql.getItemHandler none s i = ⟨404, notFoundBody⟩ ∧
    (Mysql.putItemHandler none s i name description).2 = ⟨404, notFoundBody⟩ ∧
    (Mysql.deleteItemHandler none s i).2 = ⟨404, notFoundBody⟩ ∧
    Supa.getItemHandler none s i = ⟨404, notFoundBody⟩ ∧
    (Supa.putItemHandler none s i name description).2 = ⟨404, notFoundBody⟩ ∧
    (Supa.deleteItemHandler none s i).2 = ⟨204, .empty⟩ := by
  have h2 := selectById_updateById s i name description
  rw [h, List.map_nil] at h2
  refine ⟨?_, ?_, ?_, ?_, ?_, ?_⟩
  · simp [Mysql.getItemHandler, run, h]
  · simp [Mysql.putItemHandler, run, updateById_snd, h]
  · simp [Mysql.deleteItemHandler, run, deleteById_snd, h]
  · simp [Supa.getItemHandler, run, h]
  · simp [Supa.putItemHandler, run, h2]
  · simp [Supa.deleteItemHandler, run]

/-- C1 (witness): the amended claim evaluated on the empty store at id 1. -/
theorem C1_witness :
    Mysql.getItemHandler none ⟨[], 1⟩ 1 = ⟨404, notFoundBody⟩ ∧
    (Mysql.putItemHandler none ⟨[], 1⟩ 1 none none).2 = ⟨404, notFoundBody⟩ ∧
    (Mysql.deleteItemHandler none ⟨[], 1⟩ 1).2 = ⟨404, notFoundBody⟩ ∧
    Supa.getItemHandler none ⟨[], 1⟩ 1 = ⟨404, notFoundBody⟩ ∧
    (Supa.putItemHandler none ⟨[], 1⟩ 1 none none).2 = ⟨404, notFoundBody⟩ ∧
    (Supa.deleteItemHandler none ⟨[], 1⟩ 1).2 = ⟨204, .empty⟩ :=
  C1_amended ⟨[], 1⟩ 1 none none rfl

/-- C2: from every reachable live monitor state with the failure counter at
zero (as after any success, and initially), four consecutive probe failures
leave the process alive and the fifth terminates it with exit code 1; from
every reachable live state, five consecutive failures terminate the process
with a non-zero exit code; and a successful probe from any reachable live
state leaves the consecutive-failure counter at zero. -/
theorem C2_monitor_five_failures (s : MonState) (hr : Reachable s)
    (hl : s.exitCode = none) :
    (s.connectionAttempts = 0 →
      (stepN s (List.replicate 4 false)).exitCode = none ∧
      stepN s (List.replicate 5 false) = ⟨false, 5, some 1⟩) ∧
    TerminatedNonzero (stepN s (List.replicate 5 false)) ∧
    (checkConnection true s).connectionAttempts = 0 := by
  have hinv := reachable_inv hr
  have hreset := success_resets hr hl
  obtain ⟨b, a, ec⟩ := s
  simp only at hl
  subst hl
  refine ⟨?_, ?_, hreset⟩
  · intro h0
    simp only at h0
    subst h0
    exact stepN_fail_from_zero b
  · obtain ⟨-, h2, -⟩ := hinv
    have ha : a ≤ 4 := h2 rfl
    exact ⟨1, stepN_fail_five a (by omega) b, by decide⟩

/-- C2 (witness): the theorem evaluated at the initial monitor state. -/
theorem C2_witness :
    (stepN initMonState (List.replicate 4 false)).exitCode = none ∧
    stepN initMonState (List.replicate 5 false) = ⟨false, 5, some 1⟩ ∧
    TerminatedNonzero (stepN initMonState (List.replicate 5 false)) ∧
    (checkConnection true initMonState).connectionAttempts = 0 := by
  have h := C2_monitor_five_failures initMonState ⟨[], rfl⟩ rfl
  exact ⟨(h.1 rfl).1, (h.1 rfl).2, h.2.1, h.2.2⟩

/-- C3 (counterexample): the claim says PUT on an existing id responds 200
with a body equal to exactly the three fields `{id, name, description}`. In
the Supabase variant `.update(...).select().single()` yields the full updated
row and the handler serializes all of it: on a store holding the row with
id 1 and location "L", the response body carries a `location` field and is
not the three-field object. -/
theorem C3_counterexample :
    (Supa.putItemHandler none
        ⟨[⟨1, some "L", some "C", some "I", some "CL", some "S", none, none⟩], 2⟩
        1 (some "N") (some "D")).2.status = 200 ∧
    (Supa.putItemHandler none
        ⟨[⟨1, some "L", some "C", some "I", some "CL", some "S", none, none⟩], 2⟩
        1 (some "N") (some "D")).2.body.hasField "location" = true ∧
    (Supa.putItemHandler none
        ⟨[⟨1, some "L", some "C", some "I", some "CL", some "S", none, none⟩], 2⟩
        1 (some "N") (some "D")).2.body ≠
      Body.obj [("id", JVal.num 1), ("name", JVal.str "N"),
                ("description", JVal.str "D")] := by
  refine ⟨rfl, rfl, ?_⟩
  decide

/-- C3 (amended): for every id matching a stored Item, PUT with
`{name:"N", description:"D"}` responds 200 in both variants; the MySQL
variant's body is exactly `{id, name:"N", description:"D"}`, while the
Supabase variant's body is the full updated row, which contains `name:"N"`
and `description:"D"` among its fields. -/
theorem C3_amended (s : Store) (i : Nat) (r : Item)
    (name description : Option String)
    (h : (selectById s i).head? = some r) :
    (Mysql.putItemHandler none s i name description).2 =
      ⟨200, .obj [("id", .num i), ("name", optJ name),
                  ("description", optJ description)]⟩ ∧
    (Supa.putItemHandler none s i name description).2 =
      ⟨200, .obj (updateRow r name description).toJson⟩ ∧
    ("name", optJ name) ∈ (updateRow r name description).toJson ∧
    ("description", optJ description) ∈ (updateRow r name description).toJson := by
  have hlen : (selectById s i).length ≠ 0 := by
    cases hs : selectById s i
    · rw [hs] at h; cases h
    · simp [hs]
  have hhd : (selectById (updateById s i name description).1 i).head? =
      some (updateRow r name description) := by
    rw [selectById_updateById, List.head?_map, h]
    rfl
  refine ⟨?_, ?_, ?_, ?_⟩
  · simp [Mysql.putItemHandler, run, updateById_snd, hlen]
  · simp [Supa.putItemHandler, run, hhd]
  · simp [Item.toJson, updateRow]
  · simp [Item.toJson, updateRow]

/-- C3 (witness): the amended claim evaluated on a store holding one row with
id 1 and populated creation fields. -/
theorem C3_witness :
    (Mysql.putItemHandler none
        ⟨[⟨1, some "L", some "C", some "I", some "CL", some "S", none, none⟩], 2⟩
        1 (some "N") (some "D")).2 =
      ⟨200, .obj [("id", .num 1), ("name", optJ (some "N")),
                  ("description", optJ (some "D"))]⟩ ∧
    (Supa.putItemHandler none
        ⟨[⟨1, some "L", some "C", some "I", some "CL", some "S", none, none⟩], 2⟩
        1 (some "N") (some "D")).2 =
      ⟨200, .obj (updateRow
        ⟨1, some "L", some "C", some "I", some "CL", some "S", none, none⟩
        (some "N") (some "D")).toJson⟩ ∧
    ("name", optJ (some "N")) ∈ (updateRow
        ⟨1, some "L", some "C", some "I", some "CL", some "S", none, none⟩
        (some "N") (some "D")).toJson ∧
    ("description", optJ (some "D")) ∈ (updateRow
        ⟨1, some "L", some "C", some "I", some "CL", some "S", none, none⟩
        (some "N") (some "D")).toJson :=
  C3_amended
    ⟨[⟨1, some "L", some "C", some "I", some "CL", some "S", none, none⟩], 2⟩
    1 ⟨1, some "L", some "C", some "I", some "CL", some "S", none, none⟩
    (some "N") (some "D") rfl

/-- C4: updating an Item by id overwrites only `name` and `description`: both
variants leave the store produced by the single UPDATE query, the row count
is unchanged, every row matching the id keeps its `location`, `contacts`,
`image`, `call_logs`, `sms` and `id` verbatim while `name` and `description`
take the request values, and every row not matching the id is untouched. -/
theorem C4_put_frame (s : Store) (i : Nat) (name description : Option String) :
    (Mysql.putItemHandler none s i name description).1 =
      (updateById s i name description).1 ∧
    (Supa.putItemHandler none s i name description).1 =
      (updateById s i name description).1 ∧
    (updateById s i name description).1.rows.length = s.rows.length ∧
    (∀ r ∈ s.rows, r.id = i →
      updateRow r name description ∈ (updateById s i name description).1.rows ∧
      (updateRow r name description).location = r.location ∧
      (updateRow r name description).contacts = r.contacts ∧
      (updateRow r name description).image = r.image ∧
      (updateRow r name description).call_logs = r.call_logs ∧
      (updateRow r name description).sms = r.sms ∧
      (updateRow r name description).id = r.id ∧
      (updateRow r name description).name = name ∧
      (updateRow r name description).description = description) ∧
    (∀ r ∈ s.rows, r.id ≠ i → r ∈ (updateById s i name description).1.rows) := by
  refine ⟨mysqlPutHandler_fst s i name description,
          supaPutHandler_fst s i name description,
          by simp [updateById], ?_, ?_⟩
  · intro r hmem hid
    exact ⟨mem_updateById_of_match hmem hid name description,
           rfl, rfl, rfl, rfl, rfl, rfl, rfl, rfl⟩
  · intro r hmem hid
    exact mem_updateById_of_ne hmem hid name description

/-- C4 (witness): the frame property evaluated on a store with a matching
row (id 1) and a non-matching row (id 2). -/
theorem C4_witness :
    updateRow ⟨1, some "L", some "C", some "I", some "CL", some "S",
               some "oldN", some "oldD"⟩ (some "N") (some "D") ∈
      (updateById ⟨[⟨1, some "L", some "C", some "I", some "CL", some "S",
                     some "oldN", some "oldD"⟩,
                    ⟨2, none, none, none, none, none, none, none⟩], 3⟩
        1 (some "N") (some "D")).1.rows ∧
    (updateRow ⟨1, some "L", some "C", some "I", some "CL", some "S",
                some "oldN", some "oldD"⟩ (some "N") (some "D")).location =
      some "L" ∧
    ⟨2, none, none, none, none, none, none, none⟩ ∈
      (updateById ⟨[⟨1, some "L", some "C", some "I", some "CL", some "S",
                     some "oldN", some "oldD"⟩,
                    ⟨2, none, none, none, none, none, none, none⟩], 3⟩
        1 (some "N") (some "D")).1.rows := by
  have h := C4_put_frame
    ⟨[⟨1, some "L", some "C", some "I", some "CL", some "S",
       some "oldN", some "oldD"⟩,
      ⟨2, none, none, none, none, none, none, none⟩], 3⟩
    1 (some "N") (some "D")
  have h1 := h.2.2.2.1
    ⟨1, some "L", some "C", some "I", some "CL", some "S",
     some "oldN", some "oldD"⟩ (by simp) rfl
  have h2 := h.2.2.2.2
    ⟨2, none, none, none, none, none, none, none⟩ (by simp) (by decide)
  exact ⟨h1.1, h1.2.1, h2⟩

/-- C5: on every well-formed store, POST with the five creation fields
responds 201 — the MySQL variant with `{id, location, contacts, image,
call_logs, sms}` for the generated id and the Supabase variant with the full
created row — and a subsequent GET with the generated id responds 200 with
the created row in both variants; the created row's JSON carries the
generated id and the five field values given in the request. -/
theorem C5_post_then_get (s : Store) (h : WF s)
    (location contacts image call_logs sms : Option String) :
    (Mysql.postItemHandler none s location contacts image call_logs sms).2 =
      ⟨201, .obj [("id", .num s.nextId), ("location", optJ location),
                  ("contacts", optJ contacts), ("image", optJ image),
                  ("call_logs", optJ call_logs), ("sms", optJ sms)]⟩ ∧
    (Supa.postItemHandler none s location contacts image call_logs sms).2 =
      ⟨201, .obj (insertRow s location contacts image call_logs sms).2.toJson⟩ ∧
    Mysql.getItemHandler none
        (Mysql.postItemHandler none s location contacts image call_logs sms).1
        s.nextId =
      ⟨200, .obj (insertRow s location contacts image call_logs sms).2.toJson⟩ ∧
    Supa.getItemHandler none
        (Supa.postItemHandler none s location contacts image call_logs sms).1
        s.nextId =
      ⟨200, .obj (insertRow s location contacts image call_logs sms).2.toJson⟩ ∧
    ("id", .num s.nextId) ∈
      (insertRow s location contacts image call_logs sms).2.toJson ∧
    ("location", optJ location) ∈
      (insertRow s location contacts image call_logs sms).2.toJson ∧
    ("contacts", optJ contacts) ∈
      (insertRow s location contacts image call_logs sms).2.toJson ∧
    ("image", optJ image) ∈
      (insertRow s location contacts image call_logs sms).2.toJson ∧
    ("call_logs", optJ call_logs) ∈
      (insertRow s location contacts image call_logs sms).2.toJson ∧
    ("sms", optJ sms) ∈
      (insertRow s location contacts image call_logs sms).2.toJson := by
  have hsel := selectById_insertRow s h location contacts image call_logs sms
  refine ⟨rfl, rfl, ?_, ?_, ?_, ?_, ?_, ?_, ?_, ?_⟩
  · simp only [Mysql.getItemHandler, Mysql.postItemHandler, run]
    rw [hsel]
  · simp only [Supa.getItemHandler, Supa.postItemHandler, run]
    rw [hsel]
    rfl
  · simp [insertRow, Item.toJson]
  · simp [insertRow, Item.toJson]
  · simp [insertRow, Item.toJson]
  · simp [insertRow, Item.toJson]
  · simp [insertRow, Item.toJson]
  · simp [insertRow, Item.toJson]

/-- C5 (witness): the round trip evaluated on the empty well-formed store
with the five concrete field values of the spec's example. -/
theorem C5_witness :
    (Mysql.postItemHandler none ⟨[], 1⟩
        (some "L") (some "C") (some "I") (some "CL") (some "S")).2 =
      ⟨201, .obj [("id", .num 1), ("location", optJ (some "L")),
                  ("contacts", optJ (some "C")), ("image", optJ (some "I")),
                  ("call_logs", optJ (some "CL")), ("sms", optJ (some "S"))]⟩ ∧
    Mysql.getItemHandler none
        (Mysql.postItemHandler none ⟨[], 1⟩
          (some "L") (some "C") (some "I") (some "CL") (some "S")).1 1 =
      ⟨200, .obj (insertRow ⟨[], 1⟩
        (some "L") (some "C") (some "I") (some "CL") (some "S")).2.toJson⟩ ∧
    Supa.getItemHandler none
        (Supa.postItemHandler none ⟨[], 1⟩
          (some "L") (some "C") (some "I") (some "CL") (some "S")).1 1 =
      ⟨200, .obj (insertRow ⟨[], 1⟩
        (some "L") (some "C") (some "I") (some "CL") (some "S")).2.toJson⟩ := by
  have h := C5_post_then_get ⟨[], 1⟩ (by intro r hr; cases hr)
    (some "L") (some "C") (some "I") (some "CL") (some "S")
  exact ⟨h.1, h.2.2.1, h.2.2.2.1⟩

/-- C6: for every id matching a stored Item, DELETE responds 204 with an
empty body in both variants, and a subsequent GET with the same id responds
404 with `{error:"Item not found"}` in both variants. -/
theorem C6_delete_then_get (s : Store) (i : Nat) (h : selectById s i ≠ []) :
    (Mysql.deleteItemHandler none s i).2 = ⟨204, .empty⟩ ∧
    Mysql.getItemHandler none (Mysql.deleteItemHandler none s i).1 i =
      ⟨404, notFoundBody⟩ ∧
    (Supa.deleteItemHandler none s i).2 = ⟨204, .empty⟩ ∧
    Supa.getItemHandler none (Supa.deleteItemHandler none s i).1 i =
      ⟨404, notFoundBody⟩ := by
  have hlen : (selectById s i).length ≠ 0 :=
    fun hz => h (List.length_eq_zero.mp hz)
  refine ⟨?_, ?_, rfl, ?_⟩
  · simp [Mysql.deleteItemHandler, run, deleteById_snd, hlen]
  · rw [mysqlDeleteHandler_fst]
    simp [Mysql.getItemHandler, run, selectById_deleteById]
  · simp [Supa.getItemHandler, Supa.deleteItemHandler, run,
          selectById_deleteById]

/-- C6 (witness): deletion round trip evaluated on a store holding exactly
the row with id 1. -/
theorem C6_witness :
    (Mysql.deleteItemHandler none
        ⟨[⟨1, some "L", none, none, none, none, none, none⟩], 2⟩ 1).2 =
      ⟨204, .empty⟩ ∧
    Mysql.getItemHandler none
        (Mysql.deleteItemHandler none
          ⟨[⟨1, some "L", none, none, none, none, none, none⟩], 2⟩ 1).1 1 =
      ⟨404, notFoundBody⟩ ∧
    (Supa.deleteItemHandler none
        ⟨[⟨1, some "L", none, none, none, none, none, none⟩], 2⟩ 1).2 =
      ⟨204, .empty⟩ ∧
    Supa.getItemHandler none
        (Supa.deleteItemHandler none
          ⟨[⟨1, some "L", none, none, none, none, none, none⟩], 2⟩ 1).1 1 =
      ⟨404, notFoundBody⟩ :=
  C6_delete_then_get
    ⟨[⟨1, some "L", none, none, none, none, none, none⟩], 2⟩ 1 (by decide)

/-- C7: in both variants, `GET /api/status` responds 200 with status
"connected" exactly when the probe query succeeds, and responds 500 with
status "disconnected" and an `error` field carrying the underlying error
message exactly when the probe fails. -/
theorem C7_status_probe (now e : String) :
    Mysql.statusHandler (.ok ()) now =
      ⟨200, .obj [("status", .str "connected"),
                  ("message", .str "Database connection is active"),
                  ("timestamp", .str now)]⟩ ∧
    Mysql.statusHandler (.error e) now =
      ⟨500, .obj [("status", .str "disconnected"),
                  ("message", .str "Database connection error"),
                  ("error", .str e),
                  ("timestamp", .str now)]⟩ ∧
    Supa.statusHandler (.ok ()) now =
      ⟨200, .obj [("status", .str "connected"),
                  ("message", .str "Database connection is active"),
                  ("timestamp", .str now)]⟩ ∧
    Supa.statusHandler (.error e) now =
      ⟨500, .obj [("status", .str "disconnected"),
                  ("message", .str "Database connection error"),
                  ("error", .str e),
                  ("timestamp", .str now)]⟩ ∧
    (∀ probe : Except String Unit,
      (Mysql.statusHandler probe now).status = 200 ↔ probe = .ok ()) ∧
    (∀ probe : Except String Unit,
      (Supa.statusHandler probe now).status = 200 ↔ probe = .ok ()) := by
  refine ⟨rfl, rfl, rfl, rfl, ?_, ?_⟩
  · intro probe
    cases probe with
    | ok u => cases u; simp [Mysql.statusHandler]
    | error e2 => simp [Mysql.statusHandler]
  · intro probe
    cases probe with
    | ok u => cases u; simp [Supa.statusHandler]
    | error e2 => simp [Supa.statusHandler]

/-- C8: every route handler catches every data-layer error and responds 500
with a JSON object carrying at least an `error` field (the status route
additionally echoes the error message); this holds for each of the six
handlers of each variant applied to a thrown error. In the embedding each
handler is a total function of one data-access outcome: no error escapes and
no handler issues a second data-access call. -/
theorem C8_route_errors_500 (e now : String) (s : Store) (i : Nat)
    (location contacts image call_logs sms name description : Option String) :
    ((Mysql.statusHandler (.error e) now).status = 500 ∧
      (Mysql.statusHandler (.error e) now).body.hasField "error" = true) ∧
    ((Mysql.getItemsHandler (some e) s).status = 500 ∧
      (Mysql.getItemsHandler (some e) s).body.hasField "error" = true) ∧
    ((Mysql.postItemHandler (some e) s location contacts image call_logs
        sms).2.status = 500 ∧
      (Mysql.postItemHandler (some e) s location contacts image call_logs
        sms).2.body.hasField "error" = true) ∧
    ((Mysql.getItemHandler (some e) s i).status = 500 ∧
      (Mysql.getItemHandler (some e) s i).body.hasField "error" = true) ∧
    ((Mysql.putItemHandler (some e) s i name description).2.status = 500 ∧
      (Mysql.putItemHandler (some e) s i name
        description).2.body.hasField "error" = true) ∧
    ((Mysql.deleteItemHandler (some e) s i).2.status = 500 ∧
      (Mysql.deleteItemHandler (some e) s i).2.body.hasField "error" = true) ∧
    ((Supa.statusHandler (.error e) now).status = 500 ∧
      (Supa.statusHandler (.error e) now).body.hasField "error" = true) ∧
    ((Supa.getItemsHandler (some e) s).status = 500 ∧
      (Supa.getItemsHandler (some e) s).body.hasField "error" = true) ∧
    ((Supa.postItemHandler (some e) s location contacts image call_logs
        sms).2.status = 500 ∧
      (Supa.postItemHandler (some e) s location contacts image call_logs
        sms).2.body.hasField "error" = true) ∧
    ((Supa.getItemHandler (some e) s i).status = 500 ∧
      (Supa.getItemHandler (some e) s i).body.hasField "error" = true) ∧
    ((Supa.putItemHandler (some e) s i name description).2.status = 500 ∧
      (Supa.putItemHandler (some e) s i name
        description).2.body.hasField "error" = true) ∧
    ((Supa.deleteItemHandler (some e) s i).2.status = 500 ∧
      (Supa.deleteItemHandler (some e) s i).2.body.hasField "error" = true) :=
  ⟨⟨rfl, rfl⟩, ⟨rfl, rfl⟩, ⟨rfl, rfl⟩, ⟨rfl, rfl⟩, ⟨rfl, rfl⟩, ⟨rfl, rfl⟩,
   ⟨rfl, rfl⟩, ⟨rfl, rfl⟩, ⟨rfl, rfl⟩, ⟨rfl, rfl⟩, ⟨rfl, rfl⟩, ⟨rfl, rfl⟩⟩

/-- C9: in every reachable state of the health monitor, being connected
implies the consecutive-failure counter is zero; consequently a successful
probe from any reachable live state leaves the counter at zero, even though
the source resets the counter only inside the not-yet-connected success
branch. -/
theorem C9_connected_zero_attempts (s : MonState) (hr : Reachable s) :
    (s.isConnected = true → s.connectionAttempts = 0) ∧
    (s.exitCode = none →
      (checkConnection true s).connectionAttempts = 0) :=
  ⟨(reachable_inv hr).1, fun hl => success_resets hr hl⟩

/-- C9 (witness): the invariant evaluated at the connected state reached by
one successful probe from startup. -/
theorem C9_witness :
    (⟨true, 0, none⟩ : MonState).connectionAttempts = 0 ∧
    (checkConnection true ⟨true, 0, none⟩).connectionAttempts = 0 :=
  ⟨(C9_connected_zero_attempts ⟨true, 0, none⟩ ⟨[true], rfl⟩).1 rfl,
   (C9_connected_zero_attempts ⟨true, 0, none⟩ ⟨[true], rfl⟩).2 rfl⟩

/-- C10: for every id matching a stored Item, PUT overwrites both `name` and
`description` with the request values even when one or both are absent from
the body: `UPDATE items SET name = ?, description = ? WHERE id = ?` always
writes both columns, an absent body field being bound as NULL (modelled as
`none`), so the previous values never survive. This holds for the stores
produced by both variants' PUT handlers. -/
theorem C10_put_overwrites_omitted (s : Store) (i : Nat) (r : Item)
    (name description : Option String) (hmem : r ∈ s.rows) (hid : r.id = i) :
    updateRow r name description ∈
      (Mysql.putItemHandler none s i name description).1.rows ∧
    updateRow r name description ∈
      (Supa.putItemHandler none s i name description).1.rows ∧
    (updateRow r name description).name = name ∧
    (updateRow r name description).description = description := by
  have hm := mem_updateById_of_match hmem hid name description
  exact ⟨by rw [mysqlPutHandler_fst]; exact hm,
         by rw [supaPutHandler_fst]; exact hm, rfl, rfl⟩

/-- C10 (witness): a PUT whose body omits both fields, applied to the stored
row with id 1 whose previous `name` and `description` were populated: the
stored row afterwards carries NULL in both columns. -/
theorem C10_witness :
    updateRow ⟨1, some "L", none, none, none, none, some "oldN", some "oldD"⟩
        none none ∈
      (Mysql.putItemHandler none
        ⟨[⟨1, some "L", none, none, none, none, some "oldN", some "oldD"⟩], 2⟩
        1 none none).1.rows ∧
    updateRow ⟨1, some "L", none, none, none, none, some "oldN", some "oldD"⟩
        none none ∈
      (Supa.putItemHandler none
        ⟨[⟨1, some "L", none, none, none, none, some "oldN", some "oldD"⟩], 2⟩
        1 none none).1.rows ∧
    (updateRow ⟨1, some "L", none, none, none, none, some "oldN", some "oldD"⟩
        none none).name = none ∧
    (updateRow ⟨1, some "L", none, none, none, none, some "oldN", some "oldD"⟩
        none none).description = none :=
  C10_put_overwrites_omitted
    ⟨[⟨1, some "L", none, none, none, none, some "oldN", some "oldD"⟩], 2⟩
    1 ⟨1, some "L", none, none, none, none, some "oldN", some "oldD"⟩
    none none (List.mem_singleton.mpr rfl) rfl

end AndroidApi
